import Mathlib

/-!
Shallow embedding of the polling / composition controllers of
MetaMask/controllers (files `src/ComposableController.ts`,
`src/TokenRatesController.ts`, `src/util.ts`, and the
`PreferencesController` fragment), together with theorems settling the
frozen specification claims.

Conventions of the embedding:
* TypeScript `number` is `Int` (or `Nat` for timer ids/delays), strings are
  `String`, `undefined`-able values are `Option`, and a function that can
  throw returns `Except String _`.
* The JavaScript timer runtime (`setInterval` / `clearInterval`) is modelled
  by an explicit world holding the list of armed repeating timers; arming
  appends a fresh handle, clearing filters it out.
* External collaborators (the injected fetch functions, address
  checksumming) are passed in as parameters, mirroring their
  injected/imported role in the source.
-/

namespace MetamaskControllers

/-! ## Gas fee data model (`src/ComposableController.ts`, GasFeeController part) -/

/-- `Eip1559GasFee` from the source: wait-time estimates are numbers,
fee suggestions are GWEI hex strings. -/
structure Eip1559GasFee where
  minWaitTimeEstimate : Int
  maxWaitTimeEstimate : Int
  suggestedMaxPriorityFeePerGas : String
  suggestedMaxFeePerGas : String
  calculatedTotalMinFee : String
  deriving Repr, DecidableEq

/-- `LegacyGasFee` from the source. -/
structure LegacyGasFee where
  gasPrice : String
  deriving Repr, DecidableEq

/-- `LegacyGasPriceEstimates` from the source. -/
structure LegacyGasPriceEstimates where
  low : LegacyGasFee
  medium : LegacyGasFee
  high : LegacyGasFee
  deriving Repr, DecidableEq

/-- `GasFeeEstimates` from the source. -/
structure GasFeeEstimates where
  low : Eip1559GasFee
  medium : Eip1559GasFee
  high : Eip1559GasFee
  estimatedNextBlockBaseFee : String
  lastBlockBaseFee : String
  lastBlockMinPriorityFee : String
  lastBlockMaxPriorityFee : String
  deriving Repr, DecidableEq

/-- `GasFeeState` from the source: both estimate fields may be `undefined`. -/
structure GasFeeState where
  legacyGasPriceEstimates : Option LegacyGasPriceEstimates
  gasFeeEstimates : Option GasFeeEstimates
  deriving Repr, DecidableEq

/-- `const defaultState = { legacyGasPriceEstimates: undefined, gasFeeEstimates: undefined }` -/
def defaultState : GasFeeState :=
  { legacyGasPriceEstimates := none, gasFeeEstimates := none }

/-- The slice of the JavaScript runtime the GasFeeController interacts with:
armed repeating timers (handle id, interval delay), a fresh-handle counter,
and an observability counter of how many times the controller entered its
refresh (`_fetchGasFeeEstimateData`) and invoked the fetch collaborator. -/
structure GasWorld where
  timers : List (Nat × Nat)
  nextId : Nat
  fetchAttempts : Nat
  deriving Repr, DecidableEq

/-- `setInterval(callback, delay)`: arms a repeating timer, returns its handle. -/
def setIntervalW (w : GasWorld) (delay : Nat) : Nat × GasWorld :=
  (w.nextId, { w with timers := w.timers ++ [(w.nextId, delay)], nextId := w.nextId + 1 })

/-- `clearInterval(handle)`: disarms the repeating timer with that handle. -/
def clearIntervalW (w : GasWorld) (handle : Nat) : GasWorld :=
  { w with timers := w.timers.filter (fun t => t.1 ≠ handle) }

/-- The mutable fields of `GasFeeController`.  `mutexHeld` mirrors the
`private mutex = new Mutex()` field; no method of the class ever acquires or
releases it, so it stays at its initial (free) value. -/
structure GasFeeController where
  mutexHeld : Bool
  pollCount : Int
  intervalId : Option Nat
  intervalDelay : Nat
  state : GasFeeState
  deriving Repr, DecidableEq

/-- `safelyExecute` from `src/util.ts`: runs the operation and swallows any
error, yielding `undefined` (`none`) in that case. -/
def safelyExecute {α : Type} (operation : Except String α) : Option α :=
  match operation with
  | Except.ok a => some a
  | Except.error _ => none

/-- The `newEstimates` local of `_fetchGasFeeEstimateData`: on a successful
fetch it is built from the estimates; when the fetch throws, the `catch`
only logs and the local stays `undefined` (`none`). -/
def GasFeeController.newEstimatesOf (fetchOutcome : Except String GasFeeEstimates) :
    Option GasFeeState :=
  match fetchOutcome with
  | Except.ok estimates =>
      some { legacyGasPriceEstimates := some
               { low := { gasPrice := estimates.low.suggestedMaxFeePerGas },
                 medium := { gasPrice := estimates.medium.suggestedMaxFeePerGas },
                 high := { gasPrice := estimates.high.suggestedMaxFeePerGas } },
             gasFeeEstimates := some estimates }
  | Except.error _ => none

/-- Modelled from the spec: `BaseControllerV2.update` (the state container is
not under `src/`).  The mutator's result replaces the snapshot wholesale; a
mutator that produces no replacement (`undefined`, here `none`) yields an
empty Patch, so the snapshot is left unchanged (spec section 4.2). -/
def GasFeeController.update (c : GasFeeController) (result : Option GasFeeState) :
    GasFeeController :=
  match result with
  | none => c
  | some s => { c with state := s }

/-- `_fetchGasFeeEstimateData`: tries the injected fetch collaborator
(`fetchOutcome` is its result; note the constructor never assigns
`this.fetchGasEstimates`, so at runtime the call itself throws, an
`Except.error` outcome here); a failure is caught and only logged; the
`finally` block feeds `newEstimates` into `update` and its inner
`finally { return newEstimates }` means the method always returns normally
(`Except.ok`).  Entering the refresh bumps the world's attempt counter. -/
def GasFeeController.fetchGasFeeEstimateData (fetchOutcome : Except String GasFeeEstimates)
    (c : GasFeeController) (w : GasWorld) :
    Except String (GasFeeController × GasWorld × Option GasFeeState) :=
  let w := { w with fetchAttempts := w.fetchAttempts + 1 }
  let newEstimates := GasFeeController.newEstimatesOf fetchOutcome
  Except.ok (c.update newEstimates, w, newEstimates)

/-- The interval callback armed by `_poll`:
`safelyExecute(() => this._fetchGasFeeEstimateData())`. -/
def GasFeeController.pollTick (fetchOutcome : Except String GasFeeEstimates)
    (c : GasFeeController) (w : GasWorld) : GasFeeController × GasWorld :=
  match safelyExecute (GasFeeController.fetchGasFeeEstimateData fetchOutcome c w) with
  | some (c', w', _) => (c', w')
  | none => (c, w)

/-- `_poll`: `this.intervalId = setInterval(..., this.intervalDelay)`. -/
def GasFeeController.poll (c : GasFeeController) (w : GasWorld) :
    GasFeeController × GasWorld :=
  let (id, w) := setIntervalW w c.intervalDelay
  ({ c with intervalId := some id }, w)

/-- `_startPolling`: `if (this.pollCount === 0) { this._poll(); } this.pollCount += 1;` -/
def GasFeeController.startPolling (c : GasFeeController) (w : GasWorld) :
    GasFeeController × GasWorld :=
  let (c, w) := if c.pollCount = 0 then c.poll w else (c, w)
  ({ c with pollCount := c.pollCount + 1 }, w)

/-- `getGasFeeEstimatesAndStartPolling`: with a positive `pollCount` the
current state is returned without fetching; otherwise one immediate refresh
runs; then `_startPolling()` and the chosen `gasEstimates` is returned. -/
def GasFeeController.getGasFeeEstimatesAndStartPolling
    (fetchOutcome : Except String GasFeeEstimates)
    (c : GasFeeController) (w : GasWorld) :
    Except String (GasFeeController × GasWorld × Option GasFeeState) :=
  match (if c.pollCount > 0 then Except.ok (c, w, some c.state)
         else GasFeeController.fetchGasFeeEstimateData fetchOutcome c w) with
  | Except.error e => Except.error e
  | Except.ok (c, w, gasEstimates) =>
      let (c, w) := c.startPolling w
      Except.ok (c, w, gasEstimates)

/-- `resetState`: `this.state = defaultState` (the state-container assignment
itself is modelled from the spec, section 4.3: reset to the default
snapshot). -/
def GasFeeController.resetState (c : GasFeeController) : GasFeeController :=
  { c with state := defaultState }

/-- `stopPolling`: clears the armed interval if a handle is recorded (the
stale handle itself is not erased from the field), zeroes `pollCount` and
resets the state. -/
def GasFeeController.stopPolling (c : GasFeeController) (w : GasWorld) :
    GasFeeController × GasWorld :=
  let w := match c.intervalId with
    | some id => clearIntervalW w id
    | none => w
  (({ c with pollCount := 0 }).resetState, w)

/-- `disconnectPoller`: `this.pollCount -= 1; if (this.pollCount === 0) { this.stopPolling(); }` -/
def GasFeeController.disconnectPoller (c : GasFeeController) (w : GasWorld) :
    GasFeeController × GasWorld :=
  let c := { c with pollCount := c.pollCount - 1 }
  if c.pollCount = 0 then c.stopPolling w else (c, w)

/-! ### Micro-step model of overlapping refreshes

`_fetchGasFeeEstimateData` suspends only at `await this.fetchGasEstimates()`,
and nothing before that await consults the `mutex` field — the method's body
goes straight from entry to invoking the fetch collaborator.  So a timer
tick firing while an earlier refresh is still awaiting its fetch performs a
fresh fetch invocation unconditionally. -/

/-- Observables of the race: refreshes currently between invoking the fetch
collaborator and its completion, the total number of fetch invocations, and
the (never touched) mutex. -/
structure RefreshRace where
  inFlight : Nat
  fetchCalls : Nat
  mutexHeld : Bool
  deriving Repr, DecidableEq

/-- A scheduler event: a timer tick firing, or an outstanding fetch
completing. -/
inductive RaceEvent where
  | tick
  | complete
  deriving Repr, DecidableEq

/-- One scheduler step.  A `tick` runs the interval callback
`safelyExecute(() => this._fetchGasFeeEstimateData())`, whose body invokes
the fetch collaborator without any mutex acquisition (the `mutex` field is
declared but never used anywhere in the class), so every tick starts a new
fetch; a `complete` retires one outstanding fetch. -/
def raceStep (s : RefreshRace) : RaceEvent → RefreshRace
  | RaceEvent.tick => { s with inFlight := s.inFlight + 1, fetchCalls := s.fetchCalls + 1 }
  | RaceEvent.complete => { s with inFlight := s.inFlight - 1 }

/-- Run a sequence of scheduler events. -/
def raceRun (s : RefreshRace) (evs : List RaceEvent) : RefreshRace :=
  evs.foldl raceStep s

/-- One refresh already in flight (its fetch invoked, not yet completed). -/
def raceDuringSlowFetch : RefreshRace :=
  { inFlight := 1, fetchCalls := 1, mutexHeld := false }

/-- Projection helper for stating theorems: the (controller, world, returned
value) triple produced by `getGasFeeEstimatesAndStartPolling`, with the
(provably unreachable) error case mapped to the unchanged inputs. -/
def gasStartRun (fetchOutcome : Except String GasFeeEstimates)
    (c : GasFeeController) (w : GasWorld) :
    GasFeeController × GasWorld × Option GasFeeState :=
  match GasFeeController.getGasFeeEstimatesAndStartPolling fetchOutcome c w with
  | Except.ok t => t
  | Except.error _ => (c, w, none)

/-- Fetches observable over a future horizon: every armed repeating timer
fires once per elapsed interval, and each firing runs the refresh; with no
armed timer nothing ever fires. -/
def futureFetchAttempts (w : GasWorld) (horizon : Nat) : Nat :=
  w.timers.length * horizon

/-! ### Concrete inputs used by witnesses and counterexamples -/

/-- A sample EIP-1559 fee level. -/
def sampleEip1559 : Eip1559GasFee :=
  { minWaitTimeEstimate := 10000, maxWaitTimeEstimate := 30000,
    suggestedMaxPriorityFeePerGas := "0x1", suggestedMaxFeePerGas := "0x2",
    calculatedTotalMinFee := "0x3" }

/-- A sample successful fetch payload. -/
def sampleEstimates : GasFeeEstimates :=
  { low := sampleEip1559, medium := sampleEip1559, high := sampleEip1559,
    estimatedNextBlockBaseFee := "0x4", lastBlockBaseFee := "0x5",
    lastBlockMinPriorityFee := "0x6", lastBlockMaxPriorityFee := "0x7" }

/-- A non-default stored snapshot, as left behind by a successful refresh. -/
def sampleGasFeeState : GasFeeState :=
  { legacyGasPriceEstimates := some
      { low := { gasPrice := "0x2" }, medium := { gasPrice := "0x2" },
        high := { gasPrice := "0x2" } },
    gasFeeEstimates := some sampleEstimates }

/-- A controller whose `pollCount` is already 0 (with stale timer handle and
snapshot from an earlier session). -/
def gasCtrlAtZero : GasFeeController :=
  { mutexHeld := false, pollCount := 0, intervalId := some 3,
    intervalDelay := 15000, state := sampleGasFeeState }

/-- A controller with exactly one registered poll consumer. -/
def gasCtrlAtOne : GasFeeController :=
  { gasCtrlAtZero with pollCount := 1 }

/-- A fresh controller that has never started polling. -/
def gasCtrlFresh : GasFeeController :=
  { mutexHeld := false, pollCount := 0, intervalId := none,
    intervalDelay := 15000, state := defaultState }

/-- The runtime world while `gasCtrlAtOne`'s timer is armed. -/
def gasWorldArmed : GasWorld :=
  { timers := [(3, 15000)], nextId := 4, fetchAttempts := 2 }

/-- A runtime world with no armed timer. -/
def gasWorldIdle : GasWorld :=
  { timers := [], nextId := 0, fetchAttempts := 0 }

/-! ## ComposableController (`src/ComposableController.ts`, lines 1-81)

JavaScript objects used as string-keyed maps (`context`, `initialState`,
the aggregate state) are modelled as association lists in which the head
entry shadows older entries; `lookupName` reads a property. -/

/-- Property read on a JS-object-as-association-list: the most recently
written binding for the key wins. -/
def lookupName {β : Type} (n : String) : List (String × β) → Option β
  | [] => none
  | (k, v) :: rest => if k = n then some v else lookupName n rest

/-- A subscription listener installed by the `controllers` setter — the
closure `(state) => this.update({ [name]: state })` — identified by the
assignment generation that installed it and the child `name` it captured. -/
structure Listener where
  gen : Nat
  name : String
  deriving Repr, DecidableEq

/-- A child `BaseController` as the composition layer sees it: its
`constructor.name`, its state snapshot, its subscriber list, and its
`context` back-reference.  The v1 `BaseController` base class is not under
`src/`; the subscriber list kept in subscription order is modelled from the
spec (sections 3 and 4.4). -/
structure ChildController (σ : Type) where
  name : String
  state : σ
  subscribers : List Listener
  context : List (String × Nat)
  deriving Repr, DecidableEq

/-- The ComposableController's own fields: `internalControllers` (the child
list, as reference ids into the world), the `context` map of names to
children, and the aggregate state keyed by child name. -/
structure Composable (σ : Type) where
  internalControllers : List Nat
  context : List (String × Nat)
  aggregateState : List (String × σ)
  deriving Repr, DecidableEq

/-- The composition world: the child controllers, addressed by reference id
(children outlive assignments to `controllers`), plus the composable
controller itself. -/
structure ComposedWorld (σ : Type) where
  children : Nat → ChildController σ
  composable : Composable σ

/-- The `controllers.forEach` body of the setter (source lines 50-58): for
each child in order, record it in `context` and in `initialState` under its
`constructor.name`, and append the aggregating listener to its subscriber
list (`controller.subscribe(...)`).  The accumulator carries the children
(mutated through their reference), and the `context` and `initialState`
objects under construction.  `gen` tags which assignment installed the
listener. -/
def wireChildren {σ : Type} (gen : Nat) :
    List Nat →
    (Nat → ChildController σ) × List (String × Nat) × List (String × σ) →
    (Nat → ChildController σ) × List (String × Nat) × List (String × σ)
  | [], acc => acc
  | cid :: rest, (children, context, initialState) =>
      let ch := children cid
      let context := (ch.name, cid) :: context
      let initialState := (ch.name, ch.state) :: initialState
      let children := fun c =>
        if c = cid then
          { ch with subscribers := ch.subscribers ++ [{ gen := gen, name := ch.name }] }
        else children c
      wireChildren gen rest (children, context, initialState)

/-- The `set controllers` accessor (source lines 45-63).  It stores the new
list, builds a fresh `context`/`initialState` pair while wiring the new
children, makes every wired child's `context` field reference the (final)
shared map (`controller.context = this.context` hands out the object that
keeps being filled in), runs the `onComposed` hooks (the base default is a
no-op), and finishes with `this.update(initialState, true)`, overwriting
the aggregate wholesale (v1 `update` is not under `src/`; overwrite
semantics modelled from the spec, section 4.4).  Nothing is ever
unsubscribed from the previously assigned children. -/
def setControllers {σ : Type} (gen : Nat) (ids : List Nat) (w : ComposedWorld σ) :
    ComposedWorld σ :=
  let (children, context, initialState) := wireChildren gen ids (w.children, [], [])
  let children := fun cid =>
    if cid ∈ ids then { children cid with context := context } else children cid
  { children := children,
    composable :=
      { internalControllers := ids, context := context, aggregateState := initialState } }

/-- A state change of child `cid`: the child's snapshot is replaced, and each
of its subscribed listeners fires `(state) => this.update({ [name]: state })`
in subscription order, merging the keyed entry into the composable's
aggregate (v1 partial `update` modelled from the spec as a keyed merge). -/
def childStateChange {σ : Type} (cid : Nat) (s : σ) (w : ComposedWorld σ) :
    ComposedWorld σ :=
  let ch := w.children cid
  let children := fun c => if c = cid then { ch with state := s } else w.children c
  let aggregate := ch.subscribers.foldl
    (fun agg l => (l.name, s) :: agg) w.composable.aggregateState
  { children := children,
    composable := { w.composable with aggregateState := aggregate } }

/-- A world with a single relevant child controller named "A" at id 0. -/
def cexChildA : ChildController Nat :=
  { name := "A", state := 7, subscribers := [], context := [] }

/-- Initial composition world for the C6 counterexample. -/
def cexWorld0 : ComposedWorld Nat :=
  { children := fun _ => cexChildA,
    composable := { internalControllers := [], context := [], aggregateState := [] } }

/-- Assign `[child A]`, then replace the list with `[]`. -/
def cexWorld2 : ComposedWorld Nat :=
  setControllers 2 [] (setControllers 1 [0] cexWorld0)

/-- Two children that both report name "X" (ids 0 and 1), the later one with
a different state. -/
def cexDupWorld : ComposedWorld Nat :=
  { children := fun cid =>
      if cid = 0 then { name := "X", state := 5, subscribers := [], context := [] }
      else { name := "X", state := 9, subscribers := [], context := [] },
    composable := { internalControllers := [], context := [], aggregateState := [] } }

/-! ## TokenRatesController (`src/TokenRatesController.ts`) -/

/-- `Token` from the source. -/
structure Token where
  address : String
  decimals : Int
  symbol : String
  deriving Repr, DecidableEq

/-- One entry of the pricing service response: the queried pair and its
price (`none` models a non-number `price` in the JSON payload, which the
source coerces to 0). -/
structure Price where
  pair : String
  price : Option Int
  deriving Repr, DecidableEq

/-- The mutable fields of `TokenRatesController`: the timer `handle`, the
private `tokenList`, the `disabled` flag and `nativeCurrency` from its
config, and the `contractExchangeRates` state. -/
structure TokenRatesController where
  handle : Option Nat
  tokenList : List Token
  disabled : Bool
  nativeCurrency : String
  contractExchangeRates : List (String × Int)
  deriving Repr, DecidableEq

/-- Armed repeating timers (handle id, interval) of the TokenRatesController
and the fresh-handle counter. -/
structure RateWorld where
  timers : List (Nat × Nat)
  nextId : Nat
  deriving Repr, DecidableEq

/-- `setInterval(callback, delay)` for the rates controller. -/
def setIntervalR (w : RateWorld) (delay : Nat) : Nat × RateWorld :=
  (w.nextId, { w with timers := w.timers ++ [(w.nextId, delay)], nextId := w.nextId + 1 })

/-- `clearInterval(handle)` for the rates controller. -/
def clearIntervalR (w : RateWorld) (handle : Nat) : RateWorld :=
  { w with timers := w.timers.filter (fun t => t.1 ≠ handle) }

/-- `updateExchangeRates`: returns immediately when disabled or when no
token is tracked; otherwise builds the pair query, calls the fetch
collaborator (`fetchER query`: an `Except.error` models a network/decode
failure, which propagates — this method has no try/catch of its own —
`Except.ok none` a payload without a `prices` field, defaulted to `[]`),
and rebuilds `contractExchangeRates` from the returned prices, checksumming
the lowercased pair prefix (`toChecksumAddress` is external, injected).
The returned flag records whether the fetch collaborator was invoked. -/
def TokenRatesController.updateExchangeRates
    (toChecksumAddress : String → String)
    (fetchER : String → Except String (Option (List Price)))
    (c : TokenRatesController) :
    Except String (TokenRatesController × Bool) :=
  if c.disabled ∨ c.tokenList.length = 0 then
    Except.ok (c, false)
  else
    let pairs := c.tokenList.map
      (fun token => "pairs[]=" ++ token.address ++ "/" ++ c.nativeCurrency)
    let query := String.intercalate "&" pairs
    match fetchER query with
    | Except.error e => Except.error e
    | Except.ok res =>
        let prices := res.getD []
        let newContractExchangeRates := prices.foldl
          (fun m p =>
            let address := toChecksumAddress ((p.pair.splitOn "/").headD "").toLower
            (address, p.price.getD 0) :: m)
          []
        Except.ok ({ c with contractExchangeRates := newContractExchangeRates }, true)

/-- The `interval` setter of `TokenRatesController` (source lines 92-98):
clears the previously armed timer if one exists, runs one immediate
safely-wrapped refresh, then arms a single new repeating timer at the new
interval (each of whose ticks runs the same safely-wrapped refresh). -/
def TokenRatesController.setRatesInterval (toChecksumAddress : String → String)
    (fetchER : String → Except String (Option (List Price)))
    (interval : Nat) (c : TokenRatesController) (w : RateWorld) :
    TokenRatesController × RateWorld :=
  let w := match c.handle with
    | some h => clearIntervalR w h
    | none => w
  let c := match safelyExecute
      (TokenRatesController.updateExchangeRates toChecksumAddress fetchER c) with
    | some (c', _) => c'
    | none => c
  let (id, w) := setIntervalR w interval
  ({ c with handle := some id }, w)

/-- The two polling controllers of one client instance side by side.  The
only reference-counting state anywhere in the system is the
GasFeeController's `pollCount` — `TokenRatesController` has none. -/
structure ClientSystem where
  gasFee : GasFeeController
  gasWorld : GasWorld
  tokenRates : TokenRatesController
  rateWorld : RateWorld

/-- Assigning `interval` on the system's TokenRatesController: the setter
runs on that controller and its timers only, exactly as in the source where
the setter refers solely to `this`. -/
def ClientSystem.setRatesInterval (toChecksumAddress : String → String)
    (fetchER : String → Except String (Option (List Price)))
    (interval : Nat) (s : ClientSystem) : ClientSystem :=
  let (c, w) := TokenRatesController.setRatesInterval toChecksumAddress fetchER interval
    s.tokenRates s.rateWorld
  { s with tokenRates := c, rateWorld := w }

/-- A concrete rates controller with an armed timer handle. -/
def ratesCtrlArmed : TokenRatesController :=
  { handle := some 5, tokenList := [], disabled := false,
    nativeCurrency := "eth", contractExchangeRates := [] }

/-- The rates world while `ratesCtrlArmed`'s timer is armed. -/
def rateWorldArmed : RateWorld :=
  { timers := [(5, 180000)], nextId := 6 }

/-- A concrete disabled rates controller. -/
def ratesCtrlDisabled : TokenRatesController :=
  { handle := none, tokenList := [{ address := "0xabc", decimals := 18, symbol := "ABC" }],
    disabled := true, nativeCurrency := "eth",
    contractExchangeRates := [("0xabc", 42)] }

/-- A concrete client system for the C8 witness. -/
def clientSystem0 : ClientSystem :=
  { gasFee := gasCtrlAtOne, gasWorld := gasWorldArmed,
    tokenRates := ratesCtrlArmed, rateWorld := rateWorldArmed }

/-! ## AssetsController (`src/ComposableController.ts`, lines 343-536) and
the identical `PreferencesController.addToken` fragment -/

/-- `Collectible` from the source. -/
structure Collectible where
  address : String
  tokenId : Int
  name : String
  image : String
  deriving Repr, DecidableEq

/-- `AssetsState` from the source. -/
structure AssetsState where
  collectibles : List Collectible
  tokens : List Token
  deriving Repr, DecidableEq

/-- `ContactEntry` (from `AddressBookController`, external to the excerpt):
the shape used by `addIdentities`. -/
structure ContactEntry where
  name : String
  address : String
  deriving Repr, DecidableEq

/-- `PreferencesState` from the source fragment. -/
structure PreferencesState where
  collectibles : List Collectible
  featureFlags : List (String × Bool)
  identities : List (String × ContactEntry)
  lostIdentities : List (String × ContactEntry)
  selectedAddress : String
  tokens : List Token
  deriving Repr, DecidableEq

/-- The token-list body shared verbatim by `AssetsController.addToken` and
`PreferencesController.addToken`: `tokens.find(...)` yields the first entry
whose address equals the checksummed address; `tokens.indexOf(previousEntry)`
is the first index of that very object, which is that first matching index,
and the entry there is overwritten in place; with no previous entry the new
entry is pushed at the end. -/
def addTokenTokens (address : String) (newEntry : Token) (tokens : List Token) :
    List Token :=
  match tokens.find? (fun token => token.address = address) with
  | some _ => tokens.set (tokens.findIdx (fun token => token.address = address)) newEntry
  | none => tokens ++ [newEntry]

/-- `AssetsController.addToken`: checksums the address, replaces-or-appends
in the stored token list, stores a fresh copy (`[...tokens]`) through
`update` and returns that same list. -/
def AssetsController.addToken (toChecksumAddress : String → String)
    (address symbol : String) (decimals : Int) (s : AssetsState) :
    AssetsState × List Token :=
  let address := toChecksumAddress address
  let newEntry : Token := { address := address, decimals := decimals, symbol := symbol }
  let newTokens := addTokenTokens address newEntry s.tokens
  ({ s with tokens := newTokens }, newTokens)

/-- `PreferencesController.addToken` (from the fragment stored in
`package.json`): line for line the same method over `PreferencesState`. -/
def PreferencesController.addToken (toChecksumAddress : String → String)
    (address symbol : String) (decimals : Int) (s : PreferencesState) :
    PreferencesState × List Token :=
  let address := toChecksumAddress address
  let newEntry : Token := { address := address, decimals := decimals, symbol := symbol }
  let newTokens := addTokenTokens address newEntry s.tokens
  ({ s with tokens := newTokens }, newTokens)

/-- A concrete assets state with two distinct token addresses. -/
def assetsState0 : AssetsState :=
  { collectibles := [],
    tokens := [{ address := "0xABC", decimals := 18, symbol := "ABC" },
               { address := "0xDEF", decimals := 8, symbol := "DEF" }] }

/-- A concrete preferences state holding the same token list. -/
def preferencesState0 : PreferencesState :=
  { collectibles := [], featureFlags := [], identities := [], lostIdentities := [],
    selectedAddress := "", tokens := assetsState0.tokens }

end MetamaskControllers

namespace MetamaskControllers

/-! ## Theorems -/

/-- C1: if the external fetch of a refresh fails, `_fetchGasFeeEstimateData`
catches the error locally (`Except.ok`, nothing propagates to the caller),
leaves the whole controller — in particular the stored gas-fee state
snapshot — unchanged, and returns `undefined`; and the timer tick wrapping
it (`safelyExecute`) also completes normally without touching the armed
timers, so the timer loop keeps running. -/
theorem gasFee_fetch_failure_isolated (e : String) (c : GasFeeController) (w : GasWorld) :
    GasFeeController.fetchGasFeeEstimateData (Except.error e) c w
      = Except.ok (c, { w with fetchAttempts := w.fetchAttempts + 1 }, none)
    ∧ (GasFeeController.pollTick (Except.error e) c w).1 = c
    ∧ ((GasFeeController.pollTick (Except.error e) c w).2).timers = w.timers := by
  refine ⟨rfl, ?_, ?_⟩ <;>
    simp [GasFeeController.pollTick, GasFeeController.fetchGasFeeEstimateData,
      GasFeeController.newEstimatesOf, GasFeeController.update, safelyExecute]

/-- C2 (the code at the claim's failing input): with one refresh already in
flight, two timer ticks each invoke the external fetch again — the `mutex`
field is never acquired, so no tick is dropped: after the two ticks three
fetch invocations have been observed and three are simultaneously in
flight, not the single one the claim allows. -/
theorem gasFee_overlapping_ticks_both_fetch :
    (raceRun raceDuringSlowFetch [RaceEvent.tick, RaceEvent.tick]).fetchCalls = 3
    ∧ (raceRun raceDuringSlowFetch [RaceEvent.tick, RaceEvent.tick]).inFlight = 3 := by
  exact ⟨rfl, rfl⟩

theorem GasFeeController.update_pollCount (c : GasFeeController) (r : Option GasFeeState) :
    (c.update r).pollCount = c.pollCount := by
  cases r <;> rfl

theorem GasFeeController.update_intervalDelay (c : GasFeeController) (r : Option GasFeeState) :
    (c.update r).intervalDelay = c.intervalDelay := by
  cases r <;> rfl

/-- C3 counterexample: at a concrete controller whose `pollCount` is 0,
`disconnectPoller` raises nothing — it returns normally having done nothing
but decrement the count to `-1`, so `pollCount` does not remain a
non-negative integer as the claim states. -/
theorem disconnectPoller_at_zero_goes_negative :
    GasFeeController.disconnectPoller gasCtrlAtZero gasWorldArmed
      = ({ gasCtrlAtZero with pollCount := -1 }, gasWorldArmed)
    ∧ ¬ (0 : Int) ≤ (GasFeeController.disconnectPoller gasCtrlAtZero gasWorldArmed).1.pollCount := by
  exact ⟨by decide, by decide⟩

/-- C3 amended: calling `disconnectPoller` when `pollCount` is 0 raises no
error and does not clamp: it silently decrements the count to `-1`, leaving
the timer world and every other field untouched (the `pollCount === 0` test
fails at `-1`, so `stopPolling` does not run). -/
theorem disconnectPoller_at_zero_silently_decrements
    (c : GasFeeController) (w : GasWorld) (h : c.pollCount = 0) :
    GasFeeController.disconnectPoller c w = ({ c with pollCount := -1 }, w) := by
  simp [GasFeeController.disconnectPoller, h]

theorem disconnectPoller_at_zero_silently_decrements_witness :
    gasCtrlAtZero.pollCount = 0
    ∧ GasFeeController.disconnectPoller gasCtrlAtZero gasWorldArmed
        = ({ gasCtrlAtZero with pollCount := -1 }, gasWorldArmed) :=
  ⟨rfl, disconnectPoller_at_zero_silently_decrements gasCtrlAtZero gasWorldArmed rfl⟩

/-- C4: a `disconnectPoller` call that takes `pollCount` from 1 to 0 disarms
the repeating timer (no armed timer remains, hence no fetch can be observed
over any future horizon) and resets the stored state to the default
snapshot, whose two estimate fields are both `undefined`. -/
theorem disconnectPoller_from_one_disarms_and_resets
    (c : GasFeeController) (w : GasWorld) (id d : Nat)
    (h1 : c.pollCount = 1) (h2 : c.intervalId = some id) (h3 : w.timers = [(id, d)]) :
    (GasFeeController.disconnectPoller c w).1.pollCount = 0
    ∧ ((GasFeeController.disconnectPoller c w).2).timers = []
    ∧ (GasFeeController.disconnectPoller c w).1.state = defaultState
    ∧ (GasFeeController.disconnectPoller c w).1.state.legacyGasPriceEstimates = none
    ∧ (GasFeeController.disconnectPoller c w).1.state.gasFeeEstimates = none
    ∧ ∀ horizon, futureFetchAttempts (GasFeeController.disconnectPoller c w).2 horizon = 0 := by
  simp [GasFeeController.disconnectPoller, h1, GasFeeController.stopPolling, h2,
    clearIntervalW, h3, GasFeeController.resetState, defaultState, futureFetchAttempts]

theorem disconnectPoller_from_one_disarms_and_resets_witness :
    gasCtrlAtOne.pollCount = 1 ∧ gasCtrlAtOne.intervalId = some 3
    ∧ gasWorldArmed.timers = [(3, 15000)]
    ∧ ((GasFeeController.disconnectPoller gasCtrlAtOne gasWorldArmed).1.pollCount = 0
        ∧ ((GasFeeController.disconnectPoller gasCtrlAtOne gasWorldArmed).2).timers = []
        ∧ (GasFeeController.disconnectPoller gasCtrlAtOne gasWorldArmed).1.state = defaultState
        ∧ (GasFeeController.disconnectPoller gasCtrlAtOne gasWorldArmed).1.state.legacyGasPriceEstimates = none
        ∧ (GasFeeController.disconnectPoller gasCtrlAtOne gasWorldArmed).1.state.gasFeeEstimates = none
        ∧ ∀ horizon,
            futureFetchAttempts (GasFeeController.disconnectPoller gasCtrlAtOne gasWorldArmed).2 horizon = 0) :=
  ⟨rfl, rfl, rfl,
    disconnectPoller_from_one_disarms_and_resets gasCtrlAtOne gasWorldArmed 3 15000 rfl rfl rfl⟩

/-- C5: every call to `getGasFeeEstimatesAndStartPolling` returns normally
and increments `pollCount` by exactly 1; a call with `pollCount = 0`
performs exactly one immediate refresh and arms exactly one repeating timer
at the configured `intervalDelay`, while a call with `pollCount > 0`
performs no fetch, arms no additional timer, and returns the current stored
state. -/
theorem getGasFeeEstimatesAndStartPolling_spec
    (fetchOutcome : Except String GasFeeEstimates)
    (c : GasFeeController) (w : GasWorld) :
    GasFeeController.getGasFeeEstimatesAndStartPolling fetchOutcome c w
        = Except.ok (gasStartRun fetchOutcome c w)
    ∧ (gasStartRun fetchOutcome c w).1.pollCount = c.pollCount + 1
    ∧ (gasStartRun fetchOutcome c w).2.1.fetchAttempts
        = w.fetchAttempts + (if c.pollCount > 0 then 0 else 1)
    ∧ (gasStartRun fetchOutcome c w).2.1.timers
        = (if c.pollCount = 0 then w.timers ++ [(w.nextId, c.intervalDelay)] else w.timers)
    ∧ (gasStartRun fetchOutcome c w).2.2
        = (if c.pollCount > 0 then some c.state
           else GasFeeController.newEstimatesOf fetchOutcome) := by
  by_cases hpos : c.pollCount > 0
  · have hne : ¬ c.pollCount = 0 := by omega
    refine ⟨?_, ?_, ?_, ?_, ?_⟩ <;>
      simp [gasStartRun, GasFeeController.getGasFeeEstimatesAndStartPolling, hpos, hne,
        GasFeeController.startPolling]
  · by_cases hz : c.pollCount = 0
    · refine ⟨?_, ?_, ?_, ?_, ?_⟩ <;>
        simp [gasStartRun, GasFeeController.getGasFeeEstimatesAndStartPolling, hpos, hz,
          GasFeeController.fetchGasFeeEstimateData, GasFeeController.startPolling,
          GasFeeController.update_pollCount, GasFeeController.poll,
          GasFeeController.update_intervalDelay, setIntervalW]
    · refine ⟨?_, ?_, ?_, ?_, ?_⟩ <;>
        simp [gasStartRun, GasFeeController.getGasFeeEstimatesAndStartPolling, hpos, hz,
          GasFeeController.fetchGasFeeEstimateData, GasFeeController.startPolling,
          GasFeeController.update_pollCount]

/-! ### Composition layer lemmas -/

theorem lookupName_skip_then_hit {β : Type} (n : String) (xs : List (String × β)) (v : β)
    (ys : List (String × β)) (hxs : ∀ p ∈ xs, p.1 ≠ n) :
    lookupName n (xs ++ (n, v) :: ys) = some v := by
  induction xs with
  | nil => simp [lookupName]
  | cons p ps ih =>
      have hp : p.1 ≠ n := hxs p (List.mem_cons_self p ps)
      simpa [lookupName, hp] using ih (fun q hq => hxs q (List.mem_cons_of_mem p hq))

theorem foldl_cons_eq_reverse_append {α β : Type} (f : α → β) (l : List α) (acc : List β) :
    l.foldl (fun a x => f x :: a) acc = (l.map f).reverse ++ acc := by
  induction l generalizing acc with
  | nil => rfl
  | cons x xs ih => simp [ih, List.append_assoc]

theorem wireChildren_children_fields {σ : Type} (gen : Nat) (ids : List Nat)
    (children : Nat → ChildController σ) (ctx : List (String × Nat))
    (init : List (String × σ)) (cid : Nat) :
    ((wireChildren gen ids (children, ctx, init)).1 cid).name = (children cid).name
    ∧ ((wireChildren gen ids (children, ctx, init)).1 cid).state = (children cid).state := by
  induction ids generalizing children ctx init with
  | nil => exact ⟨rfl, rfl⟩
  | cons c rest ih =>
      simp only [wireChildren]
      rcases ih (fun c1 =>
          if c1 = c then
            { children c with subscribers :=
                (children c).subscribers ++ [{ gen := gen, name := (children c).name }] }
          else children c1)
        (((children c).name, c) :: ctx) (((children c).name, (children c).state) :: init)
        with ⟨h1, h2⟩
      constructor
      · rw [h1]; by_cases hc : cid = c <;> simp [hc]
      · rw [h2]; by_cases hc : cid = c <;> simp [hc]

theorem wireChildren_subscribers_extend {σ : Type} (gen : Nat) (ids : List Nat)
    (children : Nat → ChildController σ) (ctx : List (String × Nat))
    (init : List (String × σ)) (cid : Nat) :
    ∃ extra, ((wireChildren gen ids (children, ctx, init)).1 cid).subscribers
      = (children cid).subscribers ++ extra := by
  induction ids generalizing children ctx init with
  | nil => exact ⟨[], by simp [wireChildren]⟩
  | cons c rest ih =>
      simp only [wireChildren]
      rcases ih (fun c1 =>
          if c1 = c then
            { children c with subscribers :=
                (children c).subscribers ++ [{ gen := gen, name := (children c).name }] }
          else children c1)
        (((children c).name, c) :: ctx) (((children c).name, (children c).state) :: init)
        with ⟨e, he⟩
      by_cases hc : cid = c
      · subst hc
        exact ⟨{ gen := gen, name := (children cid).name } :: e, by
          rw [he]; simp [List.append_assoc]⟩
      · exact ⟨e, by rw [he]; simp [hc]⟩

theorem wireChildren_context {σ : Type} (gen : Nat) (ids : List Nat)
    (children : Nat → ChildController σ) (ctx : List (String × Nat))
    (init : List (String × σ)) :
    (wireChildren gen ids (children, ctx, init)).2.1
      = ids.foldl (fun acc cid => ((children cid).name, cid) :: acc) ctx := by
  induction ids generalizing children ctx init with
  | nil => rfl
  | cons c rest ih =>
      simp only [wireChildren, List.foldl_cons]
      rw [ih]
      congr 1
      funext acc cid
      by_cases hc : cid = c <;> simp [hc]

theorem wireChildren_initialState {σ : Type} (gen : Nat) (ids : List Nat)
    (children : Nat → ChildController σ) (ctx : List (String × Nat))
    (init : List (String × σ)) :
    (wireChildren gen ids (children, ctx, init)).2.2
      = ids.foldl (fun acc cid => ((children cid).name, (children cid).state) :: acc) init := by
  induction ids generalizing children ctx init with
  | nil => rfl
  | cons c rest ih =>
      simp only [wireChildren, List.foldl_cons]
      rw [ih]
      congr 1
      funext acc cid
      by_cases hc : cid = c <;> simp [hc]

/-- C6 counterexample: assign `[child A]` to the composable, then replace
the list with `[]`.  The listener installed by the first assignment is still
subscribed on child A afterwards (nothing was torn down), and when A's state
changes it still fires into the aggregate: the aggregate — empty right after
the second assignment — acquires an entry for "A" even though A is no longer
a child.  This contradicts the claim that after replacing the list no
listener installed by an earlier assignment can still fire into the
aggregate. -/
theorem composable_setter_leak_example :
    (cexWorld2.children 0).subscribers = [{ gen := 1, name := "A" }]
    ∧ cexWorld2.composable.internalControllers = []
    ∧ cexWorld2.composable.aggregateState = []
    ∧ (childStateChange 0 9 cexWorld2).composable.aggregateState = [("A", 9)]
    ∧ lookupName "A" (childStateChange 0 9 cexWorld2).composable.aggregateState = some 9 := by
  refine ⟨by decide, by decide, by decide, by decide, by decide⟩

/-- C6 amended: an assignment to `controllers` wires the new children's
subscriptions but never tears down old ones — after any assignment, every
child's previous subscriber list is a prefix of its new one (the assignment
only ever appends listeners), so listeners installed by earlier assignments
remain wired and still fire into the aggregate (concretely exhibited by the
counterexample). -/
theorem setControllers_preserves_old_subscribers {σ : Type} (gen : Nat) (ids : List Nat)
    (w : ComposedWorld σ) (cid : Nat) :
    ∃ extra, ((setControllers gen ids w).children cid).subscribers
      = (w.children cid).subscribers ++ extra := by
  rcases wireChildren_subscribers_extend gen ids w.children [] [] cid with ⟨e, he⟩
  refine ⟨e, ?_⟩
  by_cases hmem : cid ∈ ids <;> simp [setControllers, hmem, he]

/-- C7: when two children of an assigned list report the same name, the
later one silently overwrites the earlier one's slot both in the `context`
map and in the aggregate initial state — the setter is a total function and
raises no error. -/
theorem setControllers_duplicate_name_later_wins {σ : Type} (gen : Nat)
    (w : ComposedWorld σ) (l₁ l₂ l₃ : List Nat) (a b : Nat) (n : String)
    (ha : (w.children a).name = n) (hb : (w.children b).name = n)
    (h₃ : ∀ c ∈ l₃, (w.children c).name ≠ n) :
    lookupName n (setControllers gen (l₁ ++ a :: l₂ ++ b :: l₃) w).composable.context
      = some b
    ∧ lookupName n
        (setControllers gen (l₁ ++ a :: l₂ ++ b :: l₃) w).composable.aggregateState
      = some (w.children b).state := by
  have hctx : (setControllers gen (l₁ ++ a :: l₂ ++ b :: l₃) w).composable.context
      = (wireChildren gen (l₁ ++ a :: l₂ ++ b :: l₃) (w.children, [], [])).2.1 := by
    simp [setControllers]
  have hagg : (setControllers gen (l₁ ++ a :: l₂ ++ b :: l₃) w).composable.aggregateState
      = (wireChildren gen (l₁ ++ a :: l₂ ++ b :: l₃) (w.children, [], [])).2.2 := by
    simp [setControllers]
  constructor
  · rw [hctx, wireChildren_context,
      foldl_cons_eq_reverse_append (fun cid => ((w.children cid).name, cid))]
    simp only [List.map_append, List.map_cons, List.reverse_append, List.reverse_cons,
      List.append_assoc, List.append_nil, List.nil_append, List.singleton_append,
      List.cons_append, hb]
    apply lookupName_skip_then_hit
    intro p hp
    rcases List.mem_reverse.mp hp with hp'
    rcases List.mem_map.mp hp' with ⟨c, hc, rfl⟩
    exact h₃ c hc
  · rw [hagg, wireChildren_initialState,
      foldl_cons_eq_reverse_append (fun cid => ((w.children cid).name, (w.children cid).state))]
    simp only [List.map_append, List.map_cons, List.reverse_append, List.reverse_cons,
      List.append_assoc, List.append_nil, List.nil_append, List.singleton_append,
      List.cons_append, hb]
    apply lookupName_skip_then_hit
    intro p hp
    rcases List.mem_reverse.mp hp with hp'
    rcases List.mem_map.mp hp' with ⟨c, hc, rfl⟩
    exact h₃ c hc

/-! ### Token rates lemmas -/

/-- C9: a `TokenRatesController` that is disabled, or whose tracked token
list is empty, returns from `updateExchangeRates` without invoking the
fetch collaborator and with the entire controller — in particular
`contractExchangeRates` — unchanged. -/
theorem updateExchangeRates_disabled_or_empty
    (toChecksumAddress : String → String)
    (fetchER : String → Except String (Option (List Price)))
    (c : TokenRatesController)
    (h : c.disabled = true ∨ c.tokenList = []) :
    TokenRatesController.updateExchangeRates toChecksumAddress fetchER c
      = Except.ok (c, false) := by
  rcases h with h | h <;> simp [TokenRatesController.updateExchangeRates, h]

theorem updateExchangeRates_disabled_or_empty_witness :
    ratesCtrlDisabled.disabled = true
    ∧ TokenRatesController.updateExchangeRates (fun x => x) (fun _ => Except.ok none)
        ratesCtrlDisabled = Except.ok (ratesCtrlDisabled, false) :=
  ⟨rfl, updateExchangeRates_disabled_or_empty (fun x => x) (fun _ => Except.ok none)
    ratesCtrlDisabled (Or.inl rfl)⟩

/-- C8: assigning a new value to the TokenRatesController's `interval`
clears the previously armed repeating timer and arms exactly one new
repeating timer at the new interval, and it leaves the system's
reference-counting state untouched: the GasFeeController (the only holder
of a reference count, `pollCount`; the rates controller has none) and its
timer world are unchanged. -/
theorem tokenRates_interval_setter_spec
    (toChecksumAddress : String → String)
    (fetchER : String → Except String (Option (List Price)))
    (interval : Nat) (s : ClientSystem) (h d : Nat)
    (h1 : s.tokenRates.handle = some h) (h2 : s.rateWorld.timers = [(h, d)]) :
    (ClientSystem.setRatesInterval toChecksumAddress fetchER interval s).rateWorld.timers
        = [(s.rateWorld.nextId, interval)]
    ∧ (ClientSystem.setRatesInterval toChecksumAddress fetchER interval s).tokenRates.handle
        = some s.rateWorld.nextId
    ∧ (ClientSystem.setRatesInterval toChecksumAddress fetchER interval s).gasFee.pollCount
        = s.gasFee.pollCount
    ∧ (ClientSystem.setRatesInterval toChecksumAddress fetchER interval s).gasFee = s.gasFee
    ∧ (ClientSystem.setRatesInterval toChecksumAddress fetchER interval s).gasWorld
        = s.gasWorld := by
  cases hup : TokenRatesController.updateExchangeRates toChecksumAddress fetchER s.tokenRates with
  | error e =>
      refine ⟨?_, ?_, ?_, ?_, ?_⟩ <;>
        simp [ClientSystem.setRatesInterval, TokenRatesController.setRatesInterval, h1, h2,
          clearIntervalR, setIntervalR, safelyExecute, hup]
  | ok cb =>
      obtain ⟨c', b⟩ := cb
      refine ⟨?_, ?_, ?_, ?_, ?_⟩ <;>
        simp [ClientSystem.setRatesInterval, TokenRatesController.setRatesInterval, h1, h2,
          clearIntervalR, setIntervalR, safelyExecute, hup]

theorem tokenRates_interval_setter_spec_witness :
    clientSystem0.tokenRates.handle = some 5
    ∧ clientSystem0.rateWorld.timers = [(5, 180000)]
    ∧ ((ClientSystem.setRatesInterval (fun x => x) (fun _ => Except.ok none) 1338
          clientSystem0).rateWorld.timers = [(clientSystem0.rateWorld.nextId, 1338)]
        ∧ (ClientSystem.setRatesInterval (fun x => x) (fun _ => Except.ok none) 1338
            clientSystem0).tokenRates.handle = some clientSystem0.rateWorld.nextId
        ∧ (ClientSystem.setRatesInterval (fun x => x) (fun _ => Except.ok none) 1338
            clientSystem0).gasFee.pollCount = clientSystem0.gasFee.pollCount
        ∧ (ClientSystem.setRatesInterval (fun x => x) (fun _ => Except.ok none) 1338
            clientSystem0).gasFee = clientSystem0.gasFee
        ∧ (ClientSystem.setRatesInterval (fun x => x) (fun _ => Except.ok none) 1338
            clientSystem0).gasWorld = clientSystem0.gasWorld) :=
  ⟨rfl, rfl,
    tokenRates_interval_setter_spec (fun x => x) (fun _ => Except.ok none) 1338
      clientSystem0 5 180000 rfl rfl⟩

/-! ### addToken lemmas -/

theorem addTokenTokens_cons_of_ne (a : String) (e t : Token) (ts : List Token)
    (ht : ¬ t.address = a) :
    addTokenTokens a e (t :: ts) = t :: addTokenTokens a e ts := by
  cases hf : ts.find? (fun token => token.address = a) with
  | none =>
      simp [addTokenTokens, List.find?_cons_of_neg, ht, hf]
  | some u =>
      simp [addTokenTokens, List.find?_cons_of_neg, ht, hf, List.findIdx_cons]

theorem addTokenTokens_spec (a : String) (e : Token) (he : e.address = a)
    (l : List Token) :
    (a ∈ l.map (fun t => t.address) →
        (addTokenTokens a e l).map (fun t => t.address) = l.map (fun t => t.address)
        ∧ (addTokenTokens a e l).length = l.length
        ∧ e ∈ addTokenTokens a e l)
    ∧ (a ∉ l.map (fun t => t.address) → addTokenTokens a e l = l ++ [e]) := by
  induction l with
  | nil =>
      refine ⟨fun hmem => absurd hmem (by simp), fun _ => ?_⟩
      simp [addTokenTokens]
  | cons t ts ih =>
      by_cases ht : t.address = a
      · have hcalc : addTokenTokens a e (t :: ts) = e :: ts := by
          simp [addTokenTokens, List.find?_cons_of_pos, ht, List.findIdx_cons]
        refine ⟨fun _ => ?_, fun hna => ?_⟩
        · rw [hcalc]
          exact ⟨by simp [he, ht], by simp, by simp⟩
        · exact absurd (by simp [ht] : a ∈ (t :: ts).map (fun t => t.address)) hna
      · have hcalc := addTokenTokens_cons_of_ne a e t ts ht
        refine ⟨fun hmem => ?_, fun hna => ?_⟩
        · have hmem' : a ∈ ts.map (fun t => t.address) := by
            rcases List.mem_map.mp hmem with ⟨u, hu, hua⟩
            rcases List.mem_cons.mp hu with rfl | hu'
            · exact absurd hua ht
            · exact List.mem_map.mpr ⟨u, hu', hua⟩
          obtain ⟨hm1, hm2, hm3⟩ := ih.1 hmem'
          rw [hcalc]
          exact ⟨by simp [hm1], by simp [hm2], List.mem_cons_of_mem _ hm3⟩
        · have hna' : a ∉ ts.map (fun t => t.address) := fun hx => hna (by simp [hx])
          rw [hcalc, ih.2 hna']
          rfl

/-- C10: `addToken` — line for line identical in `AssetsController` and
`PreferencesController` — keeps at most one entry per checksummed address:
under a duplicate-free store, adding a token whose checksummed address is
already present replaces that entry in place (same address sequence, same
length, with the new entry stored) rather than appending a duplicate, a
fresh address is appended at the end, the result stays duplicate-free, and
the returned list is exactly the newly stored list in both controllers. -/
theorem addToken_unique_address_invariant
    (toChecksumAddress : String → String) (address symbol : String) (decimals : Int)
    (s : AssetsState) (p : PreferencesState)
    (hnodup : (s.tokens.map (fun t => t.address)).Nodup)
    (hpt : p.tokens = s.tokens) :
    (AssetsController.addToken toChecksumAddress address symbol decimals s).2
        = (AssetsController.addToken toChecksumAddress address symbol decimals s).1.tokens
    ∧ (PreferencesController.addToken toChecksumAddress address symbol decimals p).2
        = (PreferencesController.addToken toChecksumAddress address symbol decimals p).1.tokens
    ∧ (PreferencesController.addToken toChecksumAddress address symbol decimals p).2
        = (AssetsController.addToken toChecksumAddress address symbol decimals s).2
    ∧ (((AssetsController.addToken toChecksumAddress address symbol decimals s).2).map
          (fun t => t.address)).Nodup
    ∧ (toChecksumAddress address ∈ s.tokens.map (fun t => t.address) →
        ((AssetsController.addToken toChecksumAddress address symbol decimals s).2).map
            (fun t => t.address) = s.tokens.map (fun t => t.address)
        ∧ ((AssetsController.addToken toChecksumAddress address symbol decimals s).2).length
            = s.tokens.length
        ∧ ({ address := toChecksumAddress address, decimals := decimals, symbol := symbol } : Token)
            ∈ (AssetsController.addToken toChecksumAddress address symbol decimals s).2)
    ∧ (toChecksumAddress address ∉ s.tokens.map (fun t => t.address) →
        (AssetsController.addToken toChecksumAddress address symbol decimals s).2
          = s.tokens ++ [{ address := toChecksumAddress address, decimals := decimals,
                           symbol := symbol }]) := by
  have hspec := addTokenTokens_spec (toChecksumAddress address)
    { address := toChecksumAddress address, decimals := decimals, symbol := symbol }
    rfl s.tokens
  have hA2 : (AssetsController.addToken toChecksumAddress address symbol decimals s).2
      = addTokenTokens (toChecksumAddress address)
          { address := toChecksumAddress address, decimals := decimals, symbol := symbol }
          s.tokens := rfl
  refine ⟨rfl, rfl, ?_, ?_, hspec.1, hspec.2⟩
  · simp [PreferencesController.addToken, AssetsController.addToken, hpt]
  · rw [hA2]
    by_cases hmem : toChecksumAddress address ∈ s.tokens.map (fun t => t.address)
    · rw [(hspec.1 hmem).1]
      exact hnodup
    · rw [hspec.2 hmem]
      simp only [List.map_append, List.map_cons, List.map_nil]
      rw [List.nodup_append]
      refine ⟨hnodup, by simp, ?_⟩
      intro x hx hx2
      rcases List.mem_singleton.mp hx2 with rfl
      exact hmem hx

theorem addToken_unique_address_invariant_witness :
    (assetsState0.tokens.map (fun t => t.address)).Nodup
    ∧ preferencesState0.tokens = assetsState0.tokens
    ∧ ((AssetsController.addToken (fun x => x) "0xABC" "ABC2" 18 assetsState0).2
          = (AssetsController.addToken (fun x => x) "0xABC" "ABC2" 18 assetsState0).1.tokens
        ∧ (PreferencesController.addToken (fun x => x) "0xABC" "ABC2" 18 preferencesState0).2
            = (PreferencesController.addToken (fun x => x) "0xABC" "ABC2" 18
                preferencesState0).1.tokens
        ∧ (PreferencesController.addToken (fun x => x) "0xABC" "ABC2" 18 preferencesState0).2
            = (AssetsController.addToken (fun x => x) "0xABC" "ABC2" 18 assetsState0).2
        ∧ (((AssetsController.addToken (fun x => x) "0xABC" "ABC2" 18 assetsState0).2).map
              (fun t => t.address)).Nodup
        ∧ ((fun x => x) "0xABC" ∈ assetsState0.tokens.map (fun t => t.address) →
            ((AssetsController.addToken (fun x => x) "0xABC" "ABC2" 18 assetsState0).2).map
                (fun t => t.address) = assetsState0.tokens.map (fun t => t.address)
            ∧ ((AssetsController.addToken (fun x => x) "0xABC" "ABC2" 18 assetsState0).2).length
                = assetsState0.tokens.length
            ∧ ({ address := (fun x => x) "0xABC", decimals := 18, symbol := "ABC2" } : Token)
                ∈ (AssetsController.addToken (fun x => x) "0xABC" "ABC2" 18 assetsState0).2)
        ∧ ((fun x => x) "0xABC" ∉ assetsState0.tokens.map (fun t => t.address) →
            (AssetsController.addToken (fun x => x) "0xABC" "ABC2" 18 assetsState0).2
              = assetsState0.tokens
                  ++ [{ address := (fun x => x) "0xABC", decimals := 18, symbol := "ABC2" }])) :=
  ⟨by decide, rfl,
    addToken_unique_address_invariant (fun x => x) "0xABC" "ABC2" 18 assetsState0
      preferencesState0 (by decide) rfl⟩

theorem setControllers_duplicate_name_later_wins_witness :
    (cexDupWorld.children 0).name = "X" ∧ (cexDupWorld.children 1).name = "X"
    ∧ (lookupName "X" (setControllers 1 ([] ++ 0 :: [] ++ 1 :: []) cexDupWorld).composable.context
          = some 1
        ∧ lookupName "X"
            (setControllers 1 ([] ++ 0 :: [] ++ 1 :: []) cexDupWorld).composable.aggregateState
          = some (cexDupWorld.children 1).state) :=
  ⟨rfl, rfl,
    setControllers_duplicate_name_later_wins 1 cexDupWorld [] [] [] 0 1 "X" rfl rfl
      (fun c hc => absurd hc (List.not_mem_nil c))⟩

end MetamaskControllers
